import Mathlib

/-!
Verification of the MCP task-automation server (readai-task-automation).

This file shallowly embeds the proposal pipeline of the server
(`src/unnamed/part_000`, the latest revision of
`src/services/mcp-server/index.js`):

* the `process-transcript` proposal construction (step 6) and the
  semantic-compare validation loop (step 7),
* the Slack card renderer `sendTaskListToSlack` with its button payloads,
* the `slack-interaction` handler's `accept_task` branch (Notion writes),
* the feedback-modal seed (`openFeedbackModal`) and the
  `view_submission` merge that produces the refined task.

External collaborators (OpenAI, Notion, Slack, MongoDB) are modelled by
their data contracts: the comparator's answer is an input to the
validation loop, and a Notion write is a value describing the request the
server issues.  JavaScript string truthiness (`x || d`) is modelled by
`strOr` on `String` and `jsOr`/`jsOpt` on `Option String`, where an
absent JS field is `none` and the empty string is falsy.
-/

/-- JS `s || d` for a string that is always present: the default replaces
only the empty string. -/
def strOr (s d : String) : String :=
  if s = "" then d else s

/-- JS `x || d` for a possibly-absent string field. -/
def jsOr (x : Option String) (d : String) : String :=
  match x with
  | none => d
  | some s => if s = "" then d else s

/-- JS `x || undefined` for a possibly-absent string field: an empty
string collapses to absence. -/
def jsOpt (x : Option String) : Option String :=
  match x with
  | none => none
  | some s => if s = "" then none else some s

/-- The `linked_jtbd` object of the extraction schema
(`{ "name": "string", "url": "string" }`); either component may be
missing from the model's answer. -/
structure LinkedJtbd where
  name : Option String
  url : Option String
deriving DecidableEq, Repr

/-- One task of `normalized.extracted_entities.projects[].tasks[]`, as the
extraction collaborator returns it (fields the server reads). -/
structure ExtractedTask where
  task_title : String
  proposal_type : Option String
  linked_jtbd : Option LinkedJtbd
  owner : Option String
  status : String
  priority_level : Option String
  start_date : Option String
  due_date : Option String
  focus_this_week : String
  notes : String
deriving DecidableEq, Repr

/-- A proposal handed to the semantic comparator (step 6 of
`process-transcript`). -/
structure Proposal where
  title : String
  project : String
  notes : String
  status : String
  owner : String
  priority : String
  linked_jtbd : String
  start_date : Option String
  due_date : Option String
  focus_this_week : String
deriving DecidableEq, Repr

/-- Step 6 of `process-transcript`: one extracted task of a project block
becomes a proposal, with JS `||` defaults on owner, priority and the
linked-JTBD name. -/
def mkProposal (projectName : String) (t : ExtractedTask) : Proposal :=
  { title := t.task_title
    project := projectName
    notes := t.notes
    status := t.status
    owner := jsOr t.owner "Unassigned"
    priority := jsOr t.priority_level "Medium"
    linked_jtbd := jsOr (t.linked_jtbd.bind LinkedJtbd.name) "TBD"
    start_date := t.start_date
    due_date := t.due_date
    focus_this_week := t.focus_this_week }

/-- A parsed comparator answer / a task flowing to the Slack renderer.
The named fields are the comparator's output schema; `id` and
`linked_jtbd_url` are extra keys the downstream handlers probe for and
which a comparator answer normally lacks. -/
structure TaskData where
  display_line : String
  action : String
  notion_url : String
  title : String
  owner : String
  priority : String
  linked_jtbd : String
  project : String
  notes : String
  status : String
  start_date : Option String
  due_date : Option String
  focus_this_week : String
  id : Option String
  linked_jtbd_url : Option String
deriving DecidableEq, Repr

/-- The safety check of the semantic-compare loop (step 7): the only
validation applied to a parsed comparator answer before it is pushed to
`finalOutput`. -/
def validateComparator (r : TaskData) : Except String TaskData :=
  if r.action = "UPDATE" ∧ r.notion_url = "New Task" then
    Except.error "UPDATE action returned without Notion URL"
  else
    Except.ok r

/-- One iteration of the per-proposal try/catch of the semantic-compare
loop: a comparator failure or a rejected answer is appended to the error
log, an accepted answer is pushed onto `finalOutput`. -/
def compareStep (acc : List TaskData × List String)
    (resp : Except String TaskData) : List TaskData × List String :=
  match resp with
  | Except.error e => (acc.1, acc.2 ++ [e])
  | Except.ok r =>
    match validateComparator r with
    | Except.ok v => (acc.1 ++ [v], acc.2)
    | Except.error e => (acc.1, acc.2 ++ [e])

/-- The semantic-compare loop of step 7.  Each element models the outcome
of one comparator call: `Except.error` is a fetch or JSON-parse failure,
`Except.ok` a parsed answer that is still checked by
`validateComparator`.  The first component is `finalOutput`, the second
the sequence of recorded (logged) comparison errors. -/
def compareLoop (responses : List (Except String TaskData)) :
    List TaskData × List String :=
  responses.foldl compareStep ([], [])

/-- The output a single comparator response contributes to `finalOutput`. -/
def compareOut (resp : Except String TaskData) : List TaskData :=
  match resp with
  | Except.error _ => []
  | Except.ok r =>
    match validateComparator r with
    | Except.ok v => [v]
    | Except.error _ => []

/-- The error log a single comparator response contributes. -/
def compareLog (resp : Except String TaskData) : List String :=
  match resp with
  | Except.error e => [e]
  | Except.ok r =>
    match validateComparator r with
    | Except.ok _ => []
    | Except.error e => [e]

/-- Notes truncation of the button payload in `sendTaskListToSlack`:
`task.notes.length > 500 ? task.notes.substring(0, 500) + "..." : task.notes`. -/
def truncateNotes (notes : String) : String :=
  if notes.length > 500 then String.mk (notes.data.take 500) ++ "..." else notes

/-- The JSON object serialized into the Accept and Feedback button values:
the task's fields spread, plus the destination data source and the trace
id, with `notes` replaced by its truncation. -/
structure ButtonPayload where
  display_line : String
  action : String
  notion_url : String
  title : String
  owner : String
  priority : String
  linked_jtbd : String
  project : String
  notes : String
  status : String
  start_date : Option String
  due_date : Option String
  focus_this_week : String
  id : Option String
  linked_jtbd_url : Option String
  targetDbId : String
  traceId : Option String
deriving DecidableEq, Repr

/-- `buttonPayload` of `sendTaskListToSlack`:
`{...task, targetDbId: targetDbId || NOTION_TASK_DB_ID, traceId, notes: <truncated>}`. -/
def mkButtonPayload (targetDbId : Option String) (fallbackDbId : String)
    (traceId : Option String) (task : TaskData) : ButtonPayload :=
  { display_line := task.display_line
    action := task.action
    notion_url := task.notion_url
    title := task.title
    owner := task.owner
    priority := task.priority
    linked_jtbd := task.linked_jtbd
    project := task.project
    notes := truncateNotes task.notes
    status := task.status
    start_date := task.start_date
    due_date := task.due_date
    focus_this_week := task.focus_this_week
    id := task.id
    linked_jtbd_url := task.linked_jtbd_url
    targetDbId := jsOr targetDbId fallbackDbId
    traceId := traceId }

/-- The per-task counter rendered into a card: `` `${index + 1} of ${taskList.length}` ``. -/
def proposalCounter (index n : Nat) : String :=
  toString (index + 1) ++ " of " ++ toString n

/-- The `jtbdDisplay` formatting of a card. -/
def jtbdDisplay (task : TaskData) : String :=
  match task.linked_jtbd_url with
  | some u =>
    if u.startsWith "http" ∧ u ≠ "" then "<" ++ u ++ "|" ++ task.linked_jtbd ++ ">"
    else strOr task.linked_jtbd "TBD"
  | none => strOr task.linked_jtbd "TBD"

/-- The `existingTaskLine` formatting of a card. -/
def existingTaskLine (task : TaskData) : String :=
  if task.action = "UPDATE" ∧ task.notion_url ≠ "" ∧ task.notion_url ≠ "New Task" then
    "*Existing task:* <" ++ task.notion_url ++ "|Open Notion Page>"
  else ""

/-- The `typeLabel` of a card. -/
def typeLabel (task : TaskData) : String :=
  if task.action = "CREATE" then "Create new Task" else "Update existing Task"

/-- `detailsText`: the human-readable body of one proposal card. -/
def detailsText (counter : String) (task : TaskData) : String :=
  "*Proposal " ++ counter ++ "*\n\n" ++
  "*Project:* " ++ strOr task.project "Unassigned" ++ "\n\n" ++
  "*Proposal type:* " ++ typeLabel task ++ "\n" ++
  "*Task title:* " ++ task.title ++ "\n\n" ++
  existingTaskLine task ++ "\n" ++
  "*Linked JTBD:* " ++ jtbdDisplay task ++ "\n\n" ++
  "*Owner:* " ++ task.owner ++ "\n" ++
  "*Status:* " ++ task.status ++ "\n" ++
  "*Start Date:* " ++ jsOr task.start_date "EMDASH" ++ "\n" ++
  "*Due Date:* " ++ jsOr task.due_date "EMDASH" ++ "\n\n" ++
  "*Priority Level:* " ++ strOr task.priority "Medium" ++ "\n" ++
  "*Source:* Virtual Meeting\n" ++
  "*Focus This Week?:* " ++ strOr task.focus_this_week "No" ++ "\n\n" ++
  "*Notes:*\n" ++ task.notes

/-- One Slack Block Kit block, as built by `sendTaskListToSlack`.  An
`actions` block carries the decoded values of its three buttons (the
Skip button's value is the constant string). -/
inductive Block where
  | header (text : String)
  | context (text : String)
  | divider
  | section (text : String)
  | actions (acceptValue : ButtonPayload) (skipValue : String)
      (feedbackValue : ButtonPayload)
deriving DecidableEq, Repr

/-- The three blocks one task contributes inside the `taskList.forEach`
rendering loop. -/
def taskCard (targetDbId : Option String) (fallbackDbId : String)
    (traceId : Option String) (n index : Nat) (task : TaskData) : List Block :=
  let payload := mkButtonPayload targetDbId fallbackDbId traceId task
  [ Block.section (detailsText (proposalCounter index n) task),
    Block.actions payload "skip" payload,
    Block.divider ]

/-- All blocks of the single `chat.postMessage` call issued by
`sendTaskListToSlack`: the header, the trace-id context line, a divider,
every proposal card in list order, and the empty-list notice. -/
def slackBlocks (taskList : List TaskData) (meetingTitle : String)
    (targetDbId : Option String) (fallbackDbId : String)
    (traceId : Option String) : List Block :=
  let n := taskList.length
  [ Block.header ("Sync Report: " ++ meetingTitle),
    Block.context ("_Ref: " ++ jsOr traceId "N/A" ++ "_"),
    Block.divider ]
  ++ (taskList.enum.map
        (fun p => taskCard targetDbId fallbackDbId traceId n p.1 p.2)).flatten
  ++ (if taskList.length = 0 then
        [Block.section "_No tasks identified in this transcript._"]
      else [])

/-- Is a block an actions block (a proposal's button row)? -/
def isActionsBlock (b : Block) : Bool :=
  match b with
  | Block.actions _ _ _ => true
  | _ => false

/-- Number of proposal button rows contained in one outbound message. -/
def countActionBlocks (blocks : List Block) : Nat :=
  blocks.countP isActionsBlock

/-- The `notionProperties` object the accept handler writes (field values
only; the Notion property wrappers carry no information). -/
structure NotionProps where
  tasksTitle : String
  status : String
  jobs : String
  owner : String
  priority : String
  source : String
  notes : String
  focusThisWeek : Bool
  startDate : Option String
  dueDate : Option String
deriving DecidableEq, Repr

/-- `notionProperties` as first constructed in the `accept_task` branch. -/
def mkNotionProperties (d : ButtonPayload) : NotionProps :=
  { tasksTitle := d.title
    status := strOr d.status "To do"
    jobs := strOr d.linked_jtbd ""
    owner := strOr d.owner ""
    priority := strOr d.priority "Medium"
    source := "Virtual Meeting"
    notes := strOr d.notes ""
    focusThisWeek := d.focus_this_week = "Yes"
    startDate := jsOpt d.start_date
    dueDate := jsOpt d.due_date }

/-- A write request the server issues to the record-keeping service:
`notion.pages.create` with a parent data source, or `notion.pages.update`
with a page id. -/
inductive NotionWrite where
  | create (dataSourceId : String) (props : NotionProps)
  | update (pageId : String) (props : NotionProps)
deriving DecidableEq, Repr

/-- The notes value a write persists. -/
def writeNotes (w : NotionWrite) : String :=
  match w with
  | NotionWrite.create _ props => props.notes
  | NotionWrite.update _ props => props.notes

/-- Is a lowercase-hex character (`[a-f0-9]`)? -/
def isHexLower (c : Char) : Bool :=
  ('a' ≤ c ∧ c ≤ 'f') ∨ ('0' ≤ c ∧ c ≤ '9')

/-- Leftmost match of the regex `([a-f0-9]{32})`: the first position with
32 consecutive lowercase-hex characters. -/
def findHex32 : List Char → Option (List Char)
  | [] => none
  | c :: rest =>
    let cand := (c :: rest).take 32
    if cand.length = 32 ∧ cand.all isHexLower then some cand
    else findHex32 rest

/-- Page-id resolution of the UPDATE branch: `taskData.id` when truthy,
otherwise the first 32-hex run of a truthy `taskData.notion_url`. -/
def resolvePageId (d : ButtonPayload) : Option String :=
  match jsOpt d.id with
  | some i => some i
  | none =>
    if d.notion_url = "" then none
    else (findHex32 d.notion_url.data).map String.mk

/-- The response the interaction endpoint produces for one request:
a card replacement (`200` with `replace_original`), an empty `200`
acknowledgment, a modal close, a `400`, the catch-all `500 "Error"`, or
no response at all (the branch falls through without calling `res`). -/
inductive SlackResponse where
  | replaceCard (text : String)
  | emptyAck
  | clearModal
  | badRequest (msg : String)
  | serverError (msg : String)
  | noResponse
deriving DecidableEq, Repr

/-- The string a JS template literal renders for a possibly-absent field. -/
def jsTemplate (x : Option String) : String :=
  match x with
  | none => "undefined"
  | some s => s

/-- The `accept_task` branch of `/api/v1/slack-interaction`.
`writeSucceeds` models whether the awaited Notion call resolves; when it
rejects, the handler's outer catch answers `500 "Error"`.  The returned
list holds the write requests issued to Notion (attempted even when they
fail). -/
def handleAccept (fallbackDbId : String) (d : ButtonPayload)
    (writeSucceeds : Bool) : SlackResponse × List NotionWrite :=
  let sourceId := strOr d.targetDbId fallbackDbId
  let props := mkNotionProperties d
  if d.action = "CREATE" then
    let write := NotionWrite.create sourceId props
    if writeSucceeds then
      (SlackResponse.replaceCard
        ("*Created:* " ++ d.title ++ " \n_Focus: " ++ d.focus_this_week ++ "_"),
       [write])
    else (SlackResponse.serverError "Error", [write])
  else if d.action = "UPDATE" then
    match resolvePageId d with
    | some pageId =>
      let props2 := { props with notes := strOr d.notes "" ++ "\n[Updated via Slack]" }
      let write := NotionWrite.update pageId props2
      if writeSucceeds then
        (SlackResponse.replaceCard ("*Updated:* " ++ d.title ++ " in Notion."), [write])
      else (SlackResponse.serverError "Error", [write])
    | none => (SlackResponse.badRequest "Could not determine Page ID for update.", [])
  else (SlackResponse.noResponse, [])

/-- A sequence of Accept clicks processed by the server, each an
independent request (the accept path reads no server-side state), paired
with whether its Notion write succeeds; the result is every write request
issued. -/
def acceptClickWrites (fallbackDbId : String)
    (clicks : List (ButtonPayload × Bool)) : List NotionWrite :=
  (clicks.map (fun c => (handleAccept fallbackDbId c.1 c.2).2)).flatten

/-- The `skip_task` branch: a card replacement, no write. -/
def handleSkip : SlackResponse × List NotionWrite :=
  (SlackResponse.replaceCard "*Skipped*", [])

/-- An entry of the in-memory `feedbackSessions` map: the task under
refinement, the iteration counter (starts at 1 when the Feedback button
is clicked), and the trace id. -/
structure FeedbackSession where
  task : ButtonPayload
  iteration : Nat
  traceId : Option String
deriving DecidableEq, Repr

/-- The field values of a submitted feedback modal, as the
`view_submission` handler extracts them (`getVal`, `getTxt`, `getDate`). -/
structure ModalValues where
  title : String
  notes : String
  owner : String
  project : String
  jtbd : String
  priority : String
  status : String
  focus : String
  start_date : Option String
  due_date : Option String
deriving DecidableEq, Repr

/-- The initial values `openFeedbackModal` seeds every form field with.
In the payloads this system produces, `linked_jtbd` is a string, so the
`typeof task.linked_jtbd === 'string'` branch applies. -/
def seedValues (task : ButtonPayload) : ModalValues :=
  { title := task.title
    notes := task.notes
    owner := strOr task.owner "Unassigned"
    project := strOr task.project "General"
    jtbd := task.linked_jtbd
    priority := strOr task.priority "Medium"
    status := strOr task.status "To do"
    focus := strOr task.focus_this_week "No"
    start_date := jsOpt task.start_date
    due_date := jsOpt task.due_date }

/-- The `view_submission` merge: `updatedTask` spreads the stored task and
overwrites every form-backed field, appending the refinement marker to
the notes; the session's iteration is then incremented and the updated
task stored back. -/
def submitFeedback (session : FeedbackSession) (v : ModalValues) :
    FeedbackSession :=
  let updatedTask : ButtonPayload :=
    { session.task with
      title := v.title
      notes := v.notes ++ "\n(Refined by User)"
      owner := v.owner
      project := v.project
      linked_jtbd := v.jtbd
      priority := v.priority
      status := v.status
      focus_this_week := v.focus
      start_date := v.start_date
      due_date := v.due_date }
  { session with iteration := session.iteration + 1, task := updatedTask }

/-- A concrete comparator answer used as a test input: a well-formed
CREATE. -/
def sampleCreate : TaskData :=
  { display_line := "Task CREATED: Draft budget"
    action := "CREATE"
    notion_url := "New Task"
    title := "Draft budget"
    owner := "Alex"
    priority := "High"
    linked_jtbd := "Budgeting"
    project := "Island Way"
    notes := "Draft the Q3 budget. It unblocks procurement. Next step is a first pass."
    status := "To do"
    start_date := some "2026-10-13"
    due_date := some "2026-10-20"
    focus_this_week := "Yes"
    id := none
    linked_jtbd_url := none }

/-- A concrete comparator answer used as a test input: a well-formed
UPDATE pointing at an existing record. -/
def sampleUpdate : TaskData :=
  { display_line := "Task UPDATED: Fix roof"
    action := "UPDATE"
    notion_url := "https://www.notion.so/0123456789abcdef0123456789abcdef"
    title := "Fix roof"
    owner := "Sam"
    priority := "Medium"
    linked_jtbd := "Maintenance"
    project := "Ridge Oak"
    notes := "Roof repair was discussed again. Contractor quote is pending. Next step is to confirm the date."
    status := "In progress"
    start_date := none
    due_date := some "2026-11-01"
    focus_this_week := "No"
    id := none
    linked_jtbd_url := none }

/-- A comparator answer the claimed invariant forbids in the CREATE
direction: `action = "CREATE"` with a non-sentinel URL. -/
def badCreateResponse : TaskData :=
  { sampleCreate with
    notion_url := "https://www.notion.so/0123456789abcdef0123456789abcdef" }

/-- A comparator answer violating the claimed UPDATE re-validation: an
UPDATE with an empty URL, which appears among no existing records. -/
def badUpdateResponse : TaskData :=
  { sampleUpdate with notion_url := "" }

/-- The one comparator answer the loop's safety check rejects:
`action = "UPDATE"` with the sentinel URL. -/
def sentinelUpdateResponse : TaskData :=
  { sampleUpdate with notion_url := "New Task" }

/-- A concrete Accept button payload for a CREATE proposal. -/
def samplePayload : ButtonPayload :=
  mkButtonPayload (some "DB1") "FALLBACK_DB" (some "trace-1") sampleCreate

/-- A concrete Accept button payload for an UPDATE proposal. -/
def sampleUpdatePayload : ButtonPayload :=
  mkButtonPayload (some "DB1") "FALLBACK_DB" (some "trace-1") sampleUpdate

/-- A concrete feedback session holding the CREATE payload at its first
iteration. -/
def sampleSession : FeedbackSession :=
  { task := samplePayload, iteration := 1, traceId := some "trace-1" }

theorem strOr_of_ne (s d : String) (h : s ≠ "") : strOr s d = s := by
  simp [strOr, h]

theorem strOr_empty_default (s : String) : strOr s "" = s := by
  unfold strOr
  split <;> simp_all

theorem jsOpt_of_ne (o : Option String) (h : o ≠ some "") : jsOpt o = o := by
  cases o with
  | none => rfl
  | some s =>
    have hs : s ≠ "" := fun hs => h (by rw [hs])
    simp [jsOpt, hs]

theorem foldl_compareStep (rs : List (Except String TaskData))
    (acc : List TaskData × List String) :
    rs.foldl compareStep acc
      = (acc.1 ++ rs.flatMap compareOut, acc.2 ++ rs.flatMap compareLog) := by
  induction rs generalizing acc with
  | nil => simp
  | cons r rs ih =>
    simp only [List.foldl_cons, List.flatMap_cons, ih]
    cases r with
    | error e => simp [compareStep, compareOut, compareLog]
    | ok t =>
      cases hv : validateComparator t with
      | ok v => simp [compareStep, compareOut, compareLog, hv]
      | error e => simp [compareStep, compareOut, compareLog, hv]

theorem compareLoop_eq (rs : List (Except String TaskData)) :
    compareLoop rs = (rs.flatMap compareOut, rs.flatMap compareLog) := by
  simp [compareLoop, foldl_compareStep]

/-- C6: a reconciliation violation for one candidate (the comparator
answering `action = UPDATE` with the sentinel URL `"New Task"`) raises an
error for that candidate only: the candidate contributes nothing to
`finalOutput` (it never reaches the Slack card queue), the error message
is recorded, and the loop's output for all other candidates is exactly
what it would have been without the violating one. -/
theorem violation_drops_single_candidate
    (pre post : List (Except String TaskData)) (r : TaskData)
    (h1 : r.action = "UPDATE") (h2 : r.notion_url = "New Task") :
    compareLoop (pre ++ [Except.ok r] ++ post)
      = ((compareLoop pre).1 ++ (compareLoop post).1,
         (compareLoop pre).2 ++ ["UPDATE action returned without Notion URL"]
           ++ (compareLoop post).2) := by
  have hv : validateComparator r
      = Except.error "UPDATE action returned without Notion URL" := by
    simp [validateComparator, h1, h2]
  simp [compareLoop_eq, List.flatMap_append, compareOut, compareLog, hv]

/-- Witness for `violation_drops_single_candidate`: a three-candidate run
whose middle answer is the sentinel violation. -/
theorem violation_drops_single_candidate_witness :
    compareLoop ([Except.ok sampleCreate] ++ [Except.ok sentinelUpdateResponse]
        ++ [Except.ok sampleUpdate])
      = ((compareLoop [Except.ok sampleCreate]).1
           ++ (compareLoop [Except.ok sampleUpdate]).1,
         (compareLoop [Except.ok sampleCreate]).2
           ++ ["UPDATE action returned without Notion URL"]
           ++ (compareLoop [Except.ok sampleUpdate]).2) :=
  violation_drops_single_candidate [Except.ok sampleCreate]
    [Except.ok sampleUpdate] sentinelUpdateResponse rfl rfl

/-- C2 counterexample: a comparator answer with `action = "CREATE"` and a
non-sentinel URL violates the CREATE direction of the claimed invariant,
yet the validation accepts it instead of rejecting it. -/
theorem create_direction_not_validated :
    validateComparator badCreateResponse = Except.ok badCreateResponse
      ∧ badCreateResponse.action = "CREATE"
      ∧ badCreateResponse.notion_url ≠ "New Task" := by
  refine ⟨rfl, rfl, ?_⟩
  decide

/-- C2 amended: the acceptance check enforces only the UPDATE direction of
the invariant — an answer is accepted exactly when it is not an UPDATE
carrying the sentinel URL; the CREATE direction is never checked. -/
theorem comparator_validation_update_direction_only (r : TaskData) :
    validateComparator r = Except.ok r
      ↔ ¬(r.action = "UPDATE" ∧ r.notion_url = "New Task") := by
  unfold validateComparator
  split <;> simp_all

/-- C3 counterexample: an UPDATE answer returning an empty URL — which is
not a non-empty URL and appears among no fetched existing records — is
accepted by the reconciliation check, so conditions (a) and (c) of the
claim are not re-validated (no existing-record list or candidate is even
consulted). -/
theorem update_membership_not_validated :
    validateComparator badUpdateResponse = Except.ok badUpdateResponse
      ∧ badUpdateResponse.action = "UPDATE"
      ∧ badUpdateResponse.notion_url = "" := by
  exact ⟨rfl, rfl, rfl⟩

/-- C3 amended: the only re-validation applied to a comparator answer is
the rejection of `action = UPDATE` with the sentinel URL: any UPDATE
answer with a non-sentinel URL (empty or not, listed among existing
records or not, fields preserved or not) is accepted with no further
condition. -/
theorem comparator_revalidation_only_sentinel_check (r : TaskData)
    (h1 : r.action = "UPDATE") (h2 : r.notion_url ≠ "New Task") :
    validateComparator r = Except.ok r := by
  simp [validateComparator, h1, h2]

/-- Witness for `comparator_revalidation_only_sentinel_check`. -/
theorem comparator_revalidation_only_sentinel_check_witness :
    validateComparator sampleUpdate = Except.ok sampleUpdate :=
  comparator_revalidation_only_sentinel_check sampleUpdate rfl (by decide)

theorem jsOr_eq_ite (x : Option String) (d : String) :
    jsOr x d = if x = none ∨ x = some "" then d else x.getD d := by
  cases x with
  | none => simp [jsOr]
  | some s => by_cases hs : s = "" <;> simp [jsOr, hs]

/-- C10: the proposal handed to the comparator substitutes defaults for
missing data — an empty or absent owner becomes `"Unassigned"`, an empty
or absent priority becomes `"Medium"`, an absent (or empty) linked-JTBD
name becomes `"TBD"` — and every other field is copied through
unchanged. -/
theorem proposal_defaults_substituted (p : String) (t : ExtractedTask) :
    (mkProposal p t).owner
        = (if t.owner = none ∨ t.owner = some "" then "Unassigned"
           else t.owner.getD "Unassigned")
      ∧ (mkProposal p t).priority
        = (if t.priority_level = none ∨ t.priority_level = some "" then "Medium"
           else t.priority_level.getD "Medium")
      ∧ (mkProposal p t).linked_jtbd
        = (if t.linked_jtbd.bind LinkedJtbd.name = none
              ∨ t.linked_jtbd.bind LinkedJtbd.name = some "" then "TBD"
           else (t.linked_jtbd.bind LinkedJtbd.name).getD "TBD")
      ∧ (mkProposal p t).title = t.task_title
      ∧ (mkProposal p t).project = p
      ∧ (mkProposal p t).notes = t.notes
      ∧ (mkProposal p t).status = t.status
      ∧ (mkProposal p t).start_date = t.start_date
      ∧ (mkProposal p t).due_date = t.due_date
      ∧ (mkProposal p t).focus_this_week = t.focus_this_week := by
  refine ⟨?_, ?_, ?_, rfl, rfl, rfl, rfl, rfl, rfl, rfl⟩ <;>
    simp [mkProposal, jsOr_eq_ite]

theorem truncateNotes_length_le (s : String) :
    (truncateNotes s).length ≤ 503 := by
  unfold truncateNotes
  split
  · rename_i h
    rw [String.length_append]
    calc (String.mk (s.data.take 500)).length + ("..." : String).length
        = (s.data.take 500).length + 3 := rfl
      _ = min 500 s.data.length + 3 := by rw [List.length_take]
      _ ≤ 503 := by omega
  · rename_i h
    omega

/-- C8: the notes encoded into a button payload equal the task's notes
when these have at most 500 characters and otherwise their first 500
characters followed by `"..."`, so the encoded notes never exceed 503
characters; every other payload field is the task's field, plus the
destination data-source id (with the configured fallback) and the trace
id. -/
theorem button_payload_contract (db : Option String) (fb : String)
    (tr : Option String) (t : TaskData) :
    let p := mkButtonPayload db fb tr t
    (p.notes = if t.notes.length ≤ 500 then t.notes
               else String.mk (t.notes.data.take 500) ++ "...")
      ∧ p.notes.length ≤ 503
      ∧ p.display_line = t.display_line
      ∧ p.action = t.action
      ∧ p.notion_url = t.notion_url
      ∧ p.title = t.title
      ∧ p.owner = t.owner
      ∧ p.priority = t.priority
      ∧ p.linked_jtbd = t.linked_jtbd
      ∧ p.project = t.project
      ∧ p.status = t.status
      ∧ p.start_date = t.start_date
      ∧ p.due_date = t.due_date
      ∧ p.focus_this_week = t.focus_this_week
      ∧ p.id = t.id
      ∧ p.linked_jtbd_url = t.linked_jtbd_url
      ∧ p.targetDbId = jsOr db fb
      ∧ p.traceId = tr := by
  refine ⟨?_, ?_, rfl, rfl, rfl, rfl, rfl, rfl, rfl, rfl, rfl, rfl, rfl,
    rfl, rfl, rfl, rfl, rfl⟩
  · show truncateNotes t.notes = _
    unfold truncateNotes
    by_cases h : t.notes.length ≤ 500
    · have : ¬ t.notes.length > 500 := by omega
      simp [this, h]
    · have : t.notes.length > 500 := by omega
      simp [this, h]
  · exact truncateNotes_length_le t.notes

/-- C9: accepting an UPDATE proposal does not persist the payload's notes
verbatim — the handler appends the marker `"\n[Updated via Slack]"`
before issuing the update, so the persisted notes end with that marker;
accepting a CREATE proposal writes the notes unmodified. -/
theorem update_accept_appends_marker (fb : String) (p q : ButtonPayload)
    (pid : String) (ok1 ok2 : Bool)
    (hp : p.action = "UPDATE") (hpid : resolvePageId p = some pid)
    (hq : q.action = "CREATE") :
    (handleAccept fb p ok1).2.map writeNotes
        = [p.notes ++ "\n[Updated via Slack]"]
      ∧ (handleAccept fb q ok2).2.map writeNotes = [q.notes] := by
  constructor
  · have hne : p.action ≠ "CREATE" := by rw [hp]; decide
    cases ok1 <;>
      simp [handleAccept, hp, hne, hpid, writeNotes, strOr_empty_default]
  · cases ok2 <;>
      simp [handleAccept, hq, writeNotes, mkNotionProperties, strOr_empty_default]

/-- Witness for `update_accept_appends_marker`: the concrete UPDATE and
CREATE payloads, page id resolved from the 32-hex run of the Notion URL. -/
theorem update_accept_appends_marker_witness :
    (handleAccept "FALLBACK_DB" sampleUpdatePayload true).2.map writeNotes
        = [sampleUpdatePayload.notes ++ "\n[Updated via Slack]"]
      ∧ (handleAccept "FALLBACK_DB" samplePayload true).2.map writeNotes
        = [samplePayload.notes] :=
  update_accept_appends_marker "FALLBACK_DB" sampleUpdatePayload samplePayload
    "0123456789abcdef0123456789abcdef" true true rfl (by decide) rfl

/-- C1 counterexample: the accept handler performs no queue-index or
cursor validation of any kind — the server holds no per-session cursor
and the payload embeds none — so processing the same Accept payload a
second time issues a second, identical record-keeping write instead of
being a silent no-op. -/
theorem duplicate_accept_double_writes :
    acceptClickWrites "FALLBACK_DB" [(samplePayload, true), (samplePayload, true)]
      = [NotionWrite.create "DB1" (mkNotionProperties samplePayload),
         NotionWrite.create "DB1" (mkNotionProperties samplePayload)] := by
  rfl

/-- C1 amended: there is no stale-click guard — an Accept click on a
CREATE proposal always issues exactly one write, as a pure function of
the payload alone, and a duplicated click issues the handler's write a
second time. -/
theorem accept_has_no_stale_click_guard (fb : String) (d : ButtonPayload)
    (ok : Bool) (h : d.action = "CREATE") :
    (handleAccept fb d ok).2.length = 1
      ∧ acceptClickWrites fb [(d, ok), (d, ok)]
        = (handleAccept fb d ok).2 ++ (handleAccept fb d ok).2 := by
  constructor
  · cases ok <;> simp [handleAccept, h]
  · simp [acceptClickWrites]

/-- Witness for `accept_has_no_stale_click_guard`. -/
theorem accept_has_no_stale_click_guard_witness :
    (handleAccept "FALLBACK_DB" samplePayload true).2.length = 1
      ∧ acceptClickWrites "FALLBACK_DB"
          [(samplePayload, true), (samplePayload, true)]
        = (handleAccept "FALLBACK_DB" samplePayload true).2
            ++ (handleAccept "FALLBACK_DB" samplePayload true).2 :=
  accept_has_no_stale_click_guard "FALLBACK_DB" samplePayload true rfl

/-- C5 counterexample: when the Notion write of an Accept fails, the
handler's outer catch answers HTTP 500 with body `"Error"` — not a
replacement "failed" card. -/
theorem accept_failure_returns_500 :
    (handleAccept "FALLBACK_DB" samplePayload false).1
      = SlackResponse.serverError "Error" := by
  rfl

/-- C5 amended: a failing record-keeping write on Accept is answered with
the catch-all `500 "Error"` response instead of a replacement card; the
single write was attempted, and — since the server keeps no cursor —
nothing advances and the original card with its buttons stays in place,
so the human can re-click or skip. -/
theorem accept_failure_no_replacement_card (fb : String) (d : ButtonPayload)
    (h : d.action = "CREATE" ∨ (d.action = "UPDATE" ∧ (resolvePageId d).isSome)) :
    (handleAccept fb d false).1 = SlackResponse.serverError "Error"
      ∧ (handleAccept fb d false).2.length = 1 := by
  rcases h with h | ⟨h, hsome⟩
  · constructor <;> simp [handleAccept, h]
  · have hne : d.action ≠ "CREATE" := by rw [h]; decide
    obtain ⟨pid, hpid⟩ := Option.isSome_iff_exists.mp hsome
    constructor <;> simp [handleAccept, h, hne, hpid]

/-- Witness for `accept_failure_no_replacement_card`. -/
theorem accept_failure_no_replacement_card_witness :
    (handleAccept "FALLBACK_DB" samplePayload false).1
        = SlackResponse.serverError "Error"
      ∧ (handleAccept "FALLBACK_DB" samplePayload false).2.length = 1 :=
  accept_failure_no_replacement_card "FALLBACK_DB" samplePayload (Or.inl rfl)

theorem countP_taskCards (db : Option String) (fb : String)
    (tr : Option String) (n : Nat) (l : List (Nat × TaskData)) :
    ((l.map (fun p => taskCard db fb tr n p.1 p.2)).flatten).countP
        isActionsBlock = l.length := by
  induction l with
  | nil => rfl
  | cons hd tl ih =>
    have hcard : List.countP isActionsBlock (taskCard db fb tr n hd.1 hd.2) = 1 :=
      rfl
    rw [List.map_cons, List.flatten_cons, List.countP_append, hcard, ih,
      List.length_cons]
    omega

/-- C4 counterexample: `sendTaskListToSlack` renders every proposal of a
session into one single `chat.postMessage` call — for a two-proposal
session the one outbound message already contains both proposal cards
(two button rows), so the card for proposal 2 is sent before proposal 1
has reached any decision. -/
theorem all_cards_sent_in_one_message :
    countActionBlocks
        (slackBlocks [sampleCreate, sampleUpdate] "Weekly Sync" (some "DB1")
          "FALLBACK_DB" (some "trace-1")) = 2 := by
  rfl

/-- C4 amended: proposals are presented in reconciliation order but all
at once — the single message built for a session carries exactly one
proposal card (button row) per reconciled proposal, not one at a time. -/
theorem cards_rendered_all_at_once (taskList : List TaskData)
    (mt : String) (db : Option String) (fb : String) (tr : Option String) :
    countActionBlocks (slackBlocks taskList mt db fb tr)
      = taskList.length := by
  unfold slackBlocks countActionBlocks
  rw [List.countP_append, List.countP_append, countP_taskCards]
  have h1 : List.countP isActionsBlock
      [Block.header ("Sync Report: " ++ mt),
       Block.context ("_Ref: " ++ jsOr tr "N/A" ++ "_"),
       Block.divider] = 0 := rfl
  have h2 : (taskList.enum).length = taskList.length := List.enum_length
  split <;> simp_all [isActionsBlock]

/-- C7 counterexample: submitting the feedback form with every field left
at its seeded value does NOT return the original task — the handler
unconditionally appends `"\n(Refined by User)"` to the notes, so the
refined task differs from the original even though the session's
iteration is incremented by one as claimed. -/
theorem feedback_submit_appends_refined_marker :
    (submitFeedback sampleSession (seedValues sampleSession.task)).task
        ≠ sampleSession.task
      ∧ (submitFeedback sampleSession (seedValues sampleSession.task)).task.notes
        = sampleSession.task.notes ++ "\n(Refined by User)"
      ∧ (submitFeedback sampleSession (seedValues sampleSession.task)).iteration
        = sampleSession.iteration + 1 := by
  refine ⟨by decide, rfl, rfl⟩

/-- C7 amended: for a task whose modal-backed fields are populated
(non-empty owner, project, priority, status and focus, and no
empty-string dates), submitting the form unchanged yields the original
task in every field except the notes, which gain the suffix
`"\n(Refined by User)"`, with the session's iteration exactly one
greater. -/
theorem feedback_submit_identity_except_notes (s : FeedbackSession)
    (h1 : s.task.owner ≠ "") (h2 : s.task.project ≠ "")
    (h3 : s.task.priority ≠ "") (h4 : s.task.status ≠ "")
    (h5 : s.task.focus_this_week ≠ "")
    (h6 : s.task.start_date ≠ some "") (h7 : s.task.due_date ≠ some "") :
    submitFeedback s (seedValues s.task)
      = { s with
          iteration := s.iteration + 1,
          task := { s.task with
                    notes := s.task.notes ++ "\n(Refined by User)" } } := by
  unfold submitFeedback seedValues
  simp [strOr_of_ne, jsOpt_of_ne, h1, h2, h3, h4, h5, h6, h7]

/-- Witness for `feedback_submit_identity_except_notes`. -/
theorem feedback_submit_identity_except_notes_witness :
    submitFeedback sampleSession (seedValues sampleSession.task)
      = { sampleSession with
          iteration := sampleSession.iteration + 1,
          task := { sampleSession.task with
                    notes := sampleSession.task.notes
                      ++ "\n(Refined by User)" } } :=
  feedback_submit_identity_except_notes sampleSession (by decide) (by decide)
    (by decide) (by decide) (by decide) (by decide) (by decide)
